import Mathlib

/-!
Verification development for the invoice-processing backend:
a shallow embedding of the circuit-breaker-protected currency lookup
(`backend/app/currency.py`), the pipeline stages
(`backend/langgraph_nodes/{extract,check_currency,convert,excel}.py`)
and the pipeline runner (`backend/app/main.py`), together with theorems
about their behaviour.

Modelling conventions:
* Python `Decimal` values, floats carrying money amounts, and JSON
  numbers are modelled as `ℚ` (every literal involved is a finite
  decimal, hence exactly representable; `Decimal(str(x))` round-trips).
* Python `None` / absent dictionary keys and object attributes are
  modelled with `Option`.
* External effects are explicit arguments: an `Upstream` value stands
  for the one HTTP request `get_rate` can make, and oracle functions
  stand for the extraction service and the rate lookup as seen by the
  pipeline stages.  Whether the network was contacted is returned
  explicitly, and mutation of the shared breaker is modelled by
  returning the new breaker state.
-/

namespace InvoiceTools

/-- The Python `str.upper()` method restricted to what the code uses
(ASCII currency codes). -/
def pyUpperChar (c : Char) : Char :=
  if c.isLower then Char.ofNat (c.toNat - 32) else c

/-- The Python `str.upper()` method on a whole string. -/
def pyUpper (s : String) : String :=
  String.mk (s.data.map pyUpperChar)

/-- `Decimal.quantize(Decimal("0.01"), rounding=ROUND_HALF_UP)`:
round to 2 decimal places, ties away from zero. -/
def roundHalfUp2 (q : ℚ) : ℚ :=
  if 0 ≤ q then (⌊q * 100 + 1 / 2⌋ : ℚ) / 100
  else -((⌊-q * 100 + 1 / 2⌋ : ℚ) / 100)

/-- The circuit breaker of `backend/app/currency.py` (class `CircuitBreaker`):
a failure counter plus a threshold.  The `asyncio.Lock` only serialises
access and has no effect on the sequential semantics modelled here. -/
structure CircuitBreaker where
  failure_count : ℕ
  max_failures : ℕ
deriving DecidableEq, Repr

/-- `CircuitBreaker()` — the default threshold of the constructor is 2
(`def __init__(self, max_failures: int = 2)`), as used by the module-level
instance `_circuit_breaker = CircuitBreaker()`. -/
def CircuitBreaker.mkDefault : CircuitBreaker :=
  { failure_count := 0, max_failures := 2 }

/-- `is_open`: `self._failure_count >= self._max_failures`. -/
def CircuitBreaker.is_open (cb : CircuitBreaker) : Bool :=
  decide (cb.max_failures ≤ cb.failure_count)

/-- `record_success`: `self._failure_count = 0`. -/
def CircuitBreaker.record_success (cb : CircuitBreaker) : CircuitBreaker :=
  { cb with failure_count := 0 }

/-- `record_failure`: `self._failure_count += 1`. -/
def CircuitBreaker.record_failure (cb : CircuitBreaker) : CircuitBreaker :=
  { cb with failure_count := cb.failure_count + 1 }

/-- `get_failure_count`: returns the current counter. -/
def CircuitBreaker.get_failure_count (cb : CircuitBreaker) : ℕ :=
  cb.failure_count

/-- The possible outcomes of the single HTTP request `get_rate` makes,
covering every branch of `currency.py` lines 94-129: non-200 status,
timeout, network error, unparsable JSON, or a parsed `rates` map. -/
inductive Upstream where
  | httpError (status_code : ℕ) (reason_phrase text : String)
  | timeout
  | requestError (msg : String)
  | invalidJson
  | rates (pairs : List (String × ℚ))
deriving DecidableEq

/-- The distinct exception classes `get_rate` can raise:
`FrankfurterDown` (breaker open), `ValueError` escaping from
`_normalize_date` (invalid input), and plain `Exception` for upstream
failures. -/
inductive RateError where
  | frankfurterDown (msg : String)
  | invalidDate (msg : String)
  | upstreamError (msg : String)
deriving DecidableEq

instance {ε α : Type} [DecidableEq ε] [DecidableEq α] : DecidableEq (Except ε α) := fun a b =>
  match a, b with
  | .ok x, .ok y =>
      if h : x = y then isTrue (by rw [h]) else isFalse (by intro hh; cases hh; exact h rfl)
  | .ok _, .error _ => isFalse (by intro hh; cases hh)
  | .error _, .ok _ => isFalse (by intro hh; cases hh)
  | .error x, .error y =>
      if h : x = y then isTrue (by rw [h]) else isFalse (by intro hh; cases hh; exact h rfl)

/-- The message interpolated into `FrankfurterDown` at `currency.py` line 79;
the argument `n` is the number printed, which the source computes as
`failure_count + 1`. -/
def frankfurterDownMsg (n : ℕ) : String :=
  "Frankfurter API is down after " ++ toString n ++ " consecutive failures"

/-- Result of one `get_rate` call: the breaker state after the call,
whether the HTTP request was issued, and the returned rate or the
raised exception. -/
structure RateResult where
  breaker : CircuitBreaker
  networkCalled : Bool
  result : Except RateError ℚ
deriving DecidableEq

/-- `get_rate(date, from_, to_)` of `backend/app/currency.py`.

`parsed` is the outcome of `_normalize_date(date)` (which delegates to
`dateutil`): `some norm_date` on success, `none` when parsing raises, in
which case `_normalize_date` raises `ValueError` with the message built
at line 57.  `upstream` is the outcome of the HTTP request, consulted
only on the paths that reach the network. -/
def get_rate (cb : CircuitBreaker) (date : String) (parsed : Option String)
    (from_ to_ : String) (upstream : Upstream) : RateResult :=
  if cb.is_open then
    { breaker := cb, networkCalled := false,
      result := .error (.frankfurterDown
        (frankfurterDownMsg (cb.get_failure_count + 1))) }
  else
    match parsed with
    | none =>
        { breaker := cb, networkCalled := false,
          result := .error (.invalidDate ("Invalid date format: " ++ date)) }
    | some norm_date =>
        let from_currency := pyUpper from_
        let to_currency := pyUpper to_
        match upstream with
        | .httpError status_code reason_phrase text =>
            { breaker := cb.record_failure, networkCalled := true,
              result := .error (.upstreamError
                ("[get_rate] Failed to fetch exchange rate for " ++ norm_date
                  ++ " (" ++ from_currency ++ " to " ++ to_currency ++ "). "
                  ++ "Code " ++ toString status_code ++ " " ++ reason_phrase
                  ++ "\n" ++ text)) }
        | .timeout =>
            { breaker := cb.record_failure, networkCalled := true,
              result := .error (.upstreamError
                ("[get_rate] Request timeout for date " ++ norm_date)) }
        | .requestError msg =>
            { breaker := cb.record_failure, networkCalled := true,
              result := .error (.upstreamError
                ("[get_rate] Network error for date " ++ norm_date ++ ": " ++ msg)) }
        | .invalidJson =>
            { breaker := cb.record_failure, networkCalled := true,
              result := .error (.upstreamError
                ("[get_rate] Invalid JSON response for date " ++ norm_date)) }
        | .rates pairs =>
            match pairs.lookup to_currency with
            | none =>
                { breaker := cb.record_failure, networkCalled := true,
                  result := .error (.upstreamError
                    ("[get_rate] Currency " ++ to_currency
                      ++ " not found in response for " ++ norm_date)) }
            | some rate =>
                { breaker := cb.record_success, networkCalled := true,
                  result := .ok (roundHalfUp2 rate) }

/-- One entry of the `files` list of the pipeline state: a Python dict whose
keys are written by the various stages (`main.py`, `upload.py`,
`extract.py`, `check_currency.py`, `convert.py`).  Absent keys and keys
holding `None` are both `none` (the code never distinguishes them: it
only uses `.get`, truthiness tests and overwrites). -/
structure FileData where
  filename : Option String := none
  file_path : Option String := none
  status : Option String := none
  error_message : Option String := none
  error : Option String := none
  invoice_date : Option String := none
  src_currency : Option String := none
  invoice_total : Option ℚ := none
  exchange_rate : Option ℚ := none
  converted_total : Option ℚ := none
deriving DecidableEq

/-- Python truthiness of an optional string (`None` and `""` are falsy). -/
def pyTruthyStr (v : Option String) : Bool :=
  match v with
  | none => false
  | some s => !s.isEmpty

/-- Python truthiness of an optional number (`None`, `0` and `0.0` are
falsy). -/
def pyTruthyNum (v : Option ℚ) : Bool :=
  match v with
  | none => false
  | some q => decide (q ≠ 0)

/-- The rate lookup as seen by the convert node: given
`(invoice_date, src_currency, target_currency)` it either returns the
rate `get_rate` produced or raises; the error string is the Python
`str(e)` rendering for the raised exception. -/
def RateOracle : Type :=
  String → String → String → Except String ℚ

/-- The body of the per-file loop of `convert.run`
(`backend/langgraph_nodes/convert.py` lines 37-70).  Returns the updated
file dict together with a flag telling whether the rate lookup (the only
network access) was performed for this file. -/
def convertFile (target_currency : String) (oracle : RateOracle)
    (file_data : FileData) : FileData × Bool :=
  if !(pyTruthyStr file_data.invoice_date && pyTruthyStr file_data.src_currency
        && pyTruthyNum file_data.invoice_total) then
    ({ file_data with
        status := some "failed",
        error := some "Missing required fields: invoice_date, src_currency, or invoice_total" },
      false)
  else
    match file_data.invoice_date, file_data.src_currency, file_data.invoice_total with
    | some invoice_date, some src_currency, some invoice_total =>
        if pyUpper src_currency = pyUpper target_currency then
          ({ file_data with exchange_rate := some 1, converted_total := some invoice_total },
            false)
        else
          match oracle invoice_date src_currency target_currency with
          | .ok rate =>
              ({ file_data with
                  exchange_rate := some rate,
                  converted_total := some (roundHalfUp2 (invoice_total * rate)) },
                true)
          | .error e =>
              ({ file_data with
                  status := some "failed",
                  error := some ("Currency conversion failed: " ++ e) },
                true)
    | _, _, _ =>
        -- unreachable: the truthiness test above guarantees all three
        -- fields are present
        (file_data, false)

/-- The `for file_data in files` loop of `convert.run`: each dict is
updated in place, so the list keeps its length and order. -/
def convertFiles (target_currency : String) (oracle : RateOracle) :
    List FileData → List FileData
  | [] => []
  | file_data :: rest =>
      (convertFile target_currency oracle file_data).1
        :: convertFiles target_currency oracle rest

/-- The Python expression `a or b` for an optional string `a` (falsy `a`, i.e. `None`
or `""`, selects `b`). -/
def pyOrStr (a : Option String) (b : String) : String :=
  match a with
  | none => b
  | some s => if s.isEmpty then b else s

/-- `convert.py` line 32:
`input.get("target_currency") or os.getenv("DEFAULT_TARGET_CURRENCY", "ILS")`.
`envVar` is the value of the environment variable, if set. -/
def resolveTargetCurrency (job : Option String) (envVar : Option String) : String :=
  pyOrStr job (envVar.getD "ILS")

/-- `ValueCurrency` dataclass of `backend/app/azure_adapter.py`. -/
structure ValueCurrency where
  amount : ℚ
  currency_code : String
deriving DecidableEq

/-- `InvoiceTotal` dataclass of `backend/app/azure_adapter.py`. -/
structure InvoiceTotalField where
  value_currency : Option ValueCurrency
  content : String
  confidence : ℚ
deriving DecidableEq

/-- `DefaultContent` dataclass of `backend/app/azure_adapter.py`. -/
structure DefaultContent where
  content : String
  confidence : ℚ
deriving DecidableEq

/-- A `datetime` date as far as the code consumes one (only through
`strftime("%d-%m-%Y")`). -/
structure PyDate where
  year : ℕ
  month : ℕ
  day : ℕ
deriving DecidableEq

/-- `InvoiceDate` dataclass of `backend/app/azure_adapter.py`.
`_extract_from_azure_response` only constructs it when `value_date` is
truthy (lines 136-143), so `value_date` is modelled as always present. -/
structure InvoiceDateField where
  value_date : PyDate
  confidence : ℚ
deriving DecidableEq

/-- `InvoiceData` dataclass of `backend/app/azure_adapter.py`, together
with the dynamic attributes the pipeline attaches to it:
`_filename` (set by `extract.py`), and `_converted_amount`,
`_exchange_rate`, `_conversion_status` (set by `convert.py`).  For the
three conversion attributes, `none` means the attribute was never set
(`getattr` default applies), `some v` that it was set to `v`, where `v`
itself is optional because the code can store Python `None`. -/
structure Invoice where
  InvoiceDate : Option InvoiceDateField := none
  InvoiceId : Option DefaultContent := none
  InvoiceTotal : Option InvoiceTotalField := none
  VendorName : Option DefaultContent := none
  VendorAddressRecipient : Option DefaultContent := none
  filenameAttr : Option String := none
  convertedAmountAttr : Option (Option ℚ) := none
  exchangeRateAttr : Option (Option ℚ) := none
  conversionStatusAttr : Option String := none
deriving DecidableEq

/-- Zero-pad a numeral to two digits (`strftime` field). -/
def pad2 (n : ℕ) : String :=
  if n < 10 then "0" ++ toString n else toString n

/-- Zero-pad a year to four digits (`strftime` `%Y`). -/
def pad4 (n : ℕ) : String :=
  if n < 10 then "000" ++ toString n
  else if n < 100 then "00" ++ toString n
  else if n < 1000 then "0" ++ toString n
  else toString n

/-- `value_date.strftime("%d-%m-%Y")`. -/
def strftimeDMY (d : PyDate) : String :=
  pad2 d.day ++ "-" ++ pad2 d.month ++ "-" ++ pad4 d.year

/-- The body of the per-invoice loop of `check_currency.run`
(`backend/langgraph_nodes/check_currency.py` lines 20-38): builds one
fresh `file_data` dict per extracted invoice. -/
def checkFileOfInvoice (invoice : Invoice) : FileData :=
  let base : FileData :=
    { filename := some (invoice.filenameAttr.getD "unknown"),
      status := some "ready_for_conversion" }
  let withCurrency :=
    match invoice.InvoiceTotal with
    | some tot =>
        match tot.value_currency with
        | some vc =>
            { base with
                src_currency := some vc.currency_code,
                invoice_total := some vc.amount }
        | none =>
            { base with
                src_currency := none,
                invoice_total := none,
                status := some "failed",
                error := some "No currency information found in invoice" }
    | none =>
        { base with
            src_currency := none,
            invoice_total := none,
            status := some "failed",
            error := some "No currency information found in invoice" }
  match invoice.InvoiceDate with
  | some df => { withCurrency with invoice_date := some (strftimeDMY df.value_date) }
  | none => { withCurrency with invoice_date := some "2024-01-01" }

/-- The `for invoice in invoices` loop of `check_currency.run`:
appends one fresh dict per invoice, in order. -/
def checkFiles : List Invoice → List FileData
  | [] => []
  | invoice :: rest => checkFileOfInvoice invoice :: checkFiles rest

/-- The pipeline state dict threaded through the LangGraph nodes
(`upload → extract → check_currency → convert → excel`). -/
structure PipelineState where
  job_id : String := ""
  target_currency : Option String := none
  files : List FileData := []
  invoices : List Invoice := []
deriving DecidableEq

/-- `check_currency.run`: REPLACES the `files` list of the state with the
list rebuilt from the extracted invoices (`result["files"] = files`),
leaving `invoices` untouched. -/
def check_currency_run (state : PipelineState) : PipelineState :=
  { state with files := checkFiles state.invoices }

/-- The extraction service as seen by `extract.run`: keyed by the
path of the file, returns what `extract_invoice(file_path)` did — raised
(`.error str(e)`), returned `None`, or returned an invoice. -/
def ExtractOracle : Type :=
  String → Except String (Option Invoice)

/-- The body of the per-file loop of `extract.run`
(`backend/langgraph_nodes/extract.py` lines 18-48).  A file without a
`file_path` key is skipped entirely; a file with `file_path` but no
`filename` key makes the whole stage raise `KeyError` (the access is
outside the `try`).  Returns the updated file dict and the invoices
appended for it (zero or one). -/
def extractStep (oracle : ExtractOracle) (file_info : FileData) :
    Except String (FileData × List Invoice) :=
  match file_info.file_path with
  | none => .ok (file_info, [])
  | some file_path =>
      match file_info.filename with
      | none => .error "KeyError: filename"
      | some filename =>
          match oracle file_path with
          | .error e =>
              .ok ({ file_info with status := some "failed", error_message := some e }, [])
          | .ok none =>
              .ok ({ file_info with
                  status := some "failed",
                  error_message := some "Failed to extract invoice data" }, [])
          | .ok (some invoice_data) =>
              .ok ({ file_info with status := some "extracted" },
                [{ invoice_data with filenameAttr := some filename }])

/-- The full `for file_info in files` loop of `extract.run`. -/
def extractFiles (oracle : ExtractOracle) :
    List FileData → Except String (List FileData × List Invoice)
  | [] => .ok ([], [])
  | file_info :: rest =>
      match extractStep oracle file_info with
      | .error e => .error e
      | .ok (fd, invs) =>
          match extractFiles oracle rest with
          | .error e => .error e
          | .ok (fds, invss) => .ok (fd :: fds, invs ++ invss)

/-- `extract.run`: updates the files in place and sets
`result["invoices"]` to the freshly built list of extracted invoices. -/
def extract_run (oracle : ExtractOracle) (state : PipelineState) :
    Except String PipelineState :=
  match extractFiles oracle state.files with
  | .error e => .error e
  | .ok (files, invoices) => .ok { state with files := files, invoices := invoices }

/-- Python-dict lookup over a list of insertions: a later insertion of
the same key overwrites an earlier one. -/
def dictGet {α : Type} (l : List (String × α)) (k : String) : Option α :=
  l.foldl (fun acc p => if p.1 = k then some p.2 else acc) none

/-- The `conversion_data` dict built by `convert.run` lines 74-82: one
insertion per file that has a truthy `filename`, carrying
`(converted_total, exchange_rate, status.get-default "success")`. -/
def conversionData (files : List FileData) : List (String × (Option ℚ × Option ℚ × String)) :=
  files.foldl
    (fun acc file_data =>
      match file_data.filename with
      | none => acc
      | some fn =>
          if fn.isEmpty then acc
          else acc ++ [(fn, (file_data.converted_total, file_data.exchange_rate,
            file_data.status.getD "success"))])
    []

/-- The `for invoice in invoices` sync loop of `convert.run` lines
85-91: copies the conversion results onto the invoice objects, keyed by
`_filename` (default `"unknown"`). -/
def syncInvoice (conv : List (String × (Option ℚ × Option ℚ × String)))
    (invoice : Invoice) : Invoice :=
  let filename := invoice.filenameAttr.getD "unknown"
  match dictGet conv filename with
  | none => invoice
  | some (ct, er, st) =>
      { invoice with
          convertedAmountAttr := some ct,
          exchangeRateAttr := some er,
          conversionStatusAttr := some st }

/-- `convert.run` (`backend/langgraph_nodes/convert.py`): resolves the
target currency, converts every file in order, then (when the state has
invoices) mirrors the per-file results onto the invoice objects. -/
def convert_run (envVar : Option String) (oracle : RateOracle)
    (state : PipelineState) : PipelineState :=
  let target_currency := resolveTargetCurrency state.target_currency envVar
  let files := convertFiles target_currency oracle state.files
  let invoices :=
    if state.invoices.isEmpty then state.invoices
    else state.invoices.map (syncInvoice (conversionData files))
  { state with files := files, invoices := invoices }

/-- A spreadsheet cell as written by `excel.run`: a string, a number,
Python `None` (openpyxl leaves the cell blank), or a float rendered by
the f-string `"{:.4f}"` (the payload is the number being formatted). -/
inductive Cell where
  | s (v : String)
  | num (v : ℚ)
  | pynone
  | rate4 (v : ℚ)
deriving DecidableEq

/-- `invoice_suffix` of `backend/langgraph_nodes/excel.py`: strip
non-digits from `InvoiceId.content`, take the last 4, left-pad with
zeros; `SUFFIX_NOT_FOUND` when there is no id or no digits. -/
def invoice_suffix (invoice : Invoice) : String :=
  match invoice.InvoiceId with
  | none => "SUFFIX_NOT_FOUND"
  | some iid =>
      if iid.content.isEmpty then "SUFFIX_NOT_FOUND"
      else
        let digits := iid.content.data.filter Char.isDigit
        if digits.isEmpty then "SUFFIX_NOT_FOUND"
        else
          let last_four := digits.drop (digits.length - 4)
          String.mk (List.replicate (4 - last_four.length) '0' ++ last_four)

/-- One data row of the report (`excel.run` lines 85-125):
`[date, suffix, target_total, foreign_total, foreign_currency,
exchange_rate, vendor_name]`. -/
def excelRow (target_currency : String) (invoice : Invoice) : List Cell :=
  let date : Cell :=
    match invoice.InvoiceDate with
    | some df => .s (strftimeDMY df.value_date)
    | none => .s "ERROR"
  let suffix : Cell := .s (invoice_suffix invoice)
  let vendor_name : Cell :=
    match invoice.VendorName with
    | some v => .s v.content
    | none => .s "N/A"
  let amounts : Cell × Cell × Cell × Cell :=
    match invoice.InvoiceTotal with
    | some tot =>
        match tot.value_currency with
        | some vc =>
            if vc.currency_code = target_currency then
              (.num vc.amount, .s "", .s "", .s "")
            else
              let target_total : Cell :=
                match invoice.convertedAmountAttr with
                | some (some q) => .num q
                | some none => .pynone
                | none => .s "N/A"
              let exchange_rate : Cell :=
                match invoice.exchangeRateAttr with
                | some (some q) => .rate4 q
                | some none => .pynone
                | none => .s "N/A"
              (target_total, .num vc.amount, .s vc.currency_code, exchange_rate)
        | none => (.s "N/A", .s "", .s "", .s "")
    | none => (.s "N/A", .s "", .s "", .s "")
  [date, suffix, amounts.1, amounts.2.1, amounts.2.2.1, amounts.2.2.2, vendor_name]

/-- The data rows `excel.run` writes: one per invoice in order, or the
single placeholder row `["ERROR", "", "N/A", ...]` when no invoice was
extracted (the `filename` variable is still `""` there). -/
def excelRows (target_currency : String) (invoices : List Invoice) : List (List Cell) :=
  if invoices.isEmpty then
    [[.s "ERROR", .s "", .s "N/A", .s "N/A", .s "N/A", .s "N/A", .s "N/A"]]
  else invoices.map (excelRow target_currency)

/-- `data_row_count = max(1, len(invoices)) if invoices else 1`. -/
def excelRowCount (invoices : List Invoice) : ℕ :=
  if invoices.isEmpty then 1 else max 1 invoices.length

/-- How `pipeline.ainvoke` (wrapped in `asyncio.wait_for`) ends, as seen
by `execute_pipeline` in `backend/app/main.py`: normal completion, the
30-second overall timeout, or an exception with message `str(e)`. -/
inductive PipelineOutcome where
  | ok
  | timedOut
  | exn (msg : String)
deriving DecidableEq

/-- A progress event put on the progress queue of the job (only the fields
every event carries; the processed/total counters are not modelled). -/
structure ProgressEvent where
  status : String
  current_step : Option String := none
  percentage : Option ℕ := none
  message : String
deriving DecidableEq

/-- `execute_pipeline` of `backend/app/main.py` (lines 36-126), given
how the pipeline invocation ends.  Returns the progress events emitted
in order and the job status written to the database (`none` when no
database update is performed). -/
def execute_pipeline (outcome : PipelineOutcome) : List ProgressEvent × Option String :=
  let startEvt : ProgressEvent :=
    { status := "processing", current_step := some "uploading",
      percentage := some 0, message := "Starting pipeline execution" }
  let extractingEvt : ProgressEvent :=
    { status := "processing", current_step := some "extracting",
      percentage := some 25, message := "Extracting invoice data" }
  match outcome with
  | .ok =>
      ([startEvt, extractingEvt,
        { status := "processing", current_step := some "currency_conversion",
          percentage := some 75, message := "Converting currencies" },
        { status := "completed", current_step := some "excel_generation",
          percentage := some 100, message := "Excel report generated successfully" }],
        some "completed")
  | .timedOut =>
      ([startEvt, extractingEvt,
        { status := "error", message := "Pipeline execution timed out" }],
        none)
  | .exn e =>
      ([startEvt, extractingEvt,
        { status := "error", message := "Pipeline execution failed: " ++ e }],
        some "error")

/-! Concrete sample data used by witnesses and counterexamples. -/

/-- A successfully extracted invoice totalling 100 USD. -/
def sampleInvoiceUSD : Invoice :=
  { InvoiceTotal := some
      { value_currency := some { amount := 100, currency_code := "USD" },
        content := "USD 100.00", confidence := 9 / 10 } }

/-- An uploaded file whose extraction will fail. -/
def sampleFileA : FileData :=
  { filename := some "a.pdf", file_path := some "uploads/a.pdf", status := some "uploaded" }

/-- An uploaded file whose extraction will succeed. -/
def sampleFileB : FileData :=
  { filename := some "b.pdf", file_path := some "uploads/b.pdf", status := some "uploaded" }

/-- An extraction service that fails for `a.pdf` and extracts
`sampleInvoiceUSD` from `b.pdf`. -/
def sampleExtractOracle : ExtractOracle := fun p =>
  if p = "uploads/b.pdf" then .ok (some sampleInvoiceUSD)
  else .error "Azure request failed"

/-- A rate lookup that always succeeds with rate 3.5. -/
def sampleRateOracle : RateOracle := fun _ _ _ => .ok (7 / 2)

/-- A two-file batch targeting ILS. -/
def sampleState : PipelineState :=
  { job_id := "job-1", target_currency := some "ILS",
    files := [sampleFileA, sampleFileB] }

/-- An extracted invoice carrying no currency information
(`InvoiceTotal` is `None`). -/
def invoiceNoCurrency : Invoice :=
  { filenameAttr := some "c.pdf" }

/-- A file dict ready for conversion (all required fields present). -/
def sampleConvertibleFile : FileData :=
  { filename := some "b.pdf", status := some "ready_for_conversion",
    invoice_date := some "2025-07-01", src_currency := some "USD",
    invoice_total := some 100 }

/-- A rate lookup that always raises (e.g. the upstream timed out). -/
def failingRateOracle : RateOracle := fun _ _ _ =>
  .error "[get_rate] Request timeout for date 2025-07-01"

/-- A file dict whose fields are all present but whose amount is the
legitimate total 0. -/
def zeroAmountFile : FileData :=
  { filename := some "z.pdf", status := some "ready_for_conversion",
    invoice_date := some "2025-07-01", src_currency := some "USD",
    invoice_total := some 0 }

/-- The item of the rounding example in the spec: source amount 123.456. -/
def roundingExampleFile : FileData :=
  { filename := some "r.pdf", status := some "ready_for_conversion",
    invoice_date := some "2025-07-01", src_currency := some "USD",
    invoice_total := some (123456 / 1000) }

/-- A state that already carries one extracted invoice. -/
def sampleStateWithInvoice : PipelineState :=
  { job_id := "job-1", target_currency := some "ILS",
    files := [sampleFileB], invoices := [sampleInvoiceUSD] }

/-! Helper lemmas. -/

/-- Evaluation rule for `roundHalfUp2` on nonnegative inputs, phrased so
that concrete instances close by `norm_num`. -/
theorem roundHalfUp2_eq_of (q : ℚ) (n : ℤ) (h0 : 0 ≤ q)
    (h1 : (n : ℚ) ≤ q * 100 + 1 / 2) (h2 : q * 100 + 1 / 2 < n + 1) :
    roundHalfUp2 q = (n : ℚ) / 100 := by
  rw [roundHalfUp2, if_pos h0]
  congr 2
  rw [Int.floor_eq_iff]
  exact ⟨h1, by exact_mod_cast h2⟩

/-- Rounding the raw upstream rate 3.333 to two decimals gives 3.33. -/
theorem roundHalfUp2_rate_example : roundHalfUp2 (3333 / 1000) = 333 / 100 := by
  rw [roundHalfUp2_eq_of (3333 / 1000) 333 (by norm_num) (by norm_num) (by norm_num)]
  norm_num

/-- Converting 123.456 at the (already rounded) rate 3.33 gives 411.11. -/
theorem roundHalfUp2_total_example :
    roundHalfUp2 (123456 / 1000 * (333 / 100)) = 41111 / 100 := by
  rw [roundHalfUp2_eq_of (123456 / 1000 * (333 / 100)) 41111 (by norm_num) (by norm_num)
    (by norm_num)]
  norm_num

/-- The convert loop preserves the length of the files list. -/
theorem convertFiles_length (target : String) (oracle : RateOracle)
    (files : List FileData) :
    (convertFiles target oracle files).length = files.length := by
  induction files with
  | nil => rfl
  | cons fd rest ih => simp [convertFiles, ih]

/-- The convert loop acts pointwise: the output at any position depends
only on the input file at that position. -/
theorem convertFiles_getElem (target : String) (oracle : RateOracle)
    (files : List FileData) (j : ℕ) :
    (convertFiles target oracle files)[j]? =
      files[j]?.map (fun fd => (convertFile target oracle fd).1) := by
  induction files generalizing j with
  | nil => simp [convertFiles]
  | cons fd rest ih =>
      cases j with
      | zero => simp [convertFiles]
      | succ k => simp [convertFiles, ih]

/-- The check-currency loop is a map over the invoices. -/
theorem checkFiles_eq_map (invoices : List Invoice) :
    checkFiles invoices = invoices.map checkFileOfInvoice := by
  induction invoices with
  | nil => rfl
  | cons inv rest ih => simp [checkFiles, ih]

/-- `convertFile` never writes a success status: it either leaves the
`status` key untouched or sets it to `"failed"`. -/
theorem convertFile_status (target : String) (oracle : RateOracle) (fd : FileData) :
    ((convertFile target oracle fd).1).status = fd.status ∨
      ((convertFile target oracle fd).1).status = some "failed" := by
  rw [convertFile]
  split
  · right; rfl
  · split
    · split
      · left; rfl
      · split
        · left; rfl
        · right; rfl
    · left; rfl

/-- A nonempty string literal is not `isEmpty`. -/
theorem isEmpty_false_of_ne (s : String) (h : s ≠ "") : s.isEmpty = false := by
  cases hE : s.isEmpty
  · rfl
  · exact absurd ((String.isEmpty_iff s).mp hE) h

/-- `convertFile` on a file whose required fields are present, whose
currency differs from the target, and whose rate lookup raises: the file
is marked failed with the cause appended, and the lookup was performed. -/
theorem convertFile_oracle_error (target : String) (oracle : RateOracle)
    (fd : FileData) (d s : String) (a : ℚ) (e : String)
    (hd : fd.invoice_date = some d) (hd2 : d ≠ "")
    (hs : fd.src_currency = some s) (hs2 : s ≠ "")
    (ha : fd.invoice_total = some a) (ha2 : a ≠ 0)
    (hne : pyUpper s ≠ pyUpper target)
    (horacle : oracle d s target = .error e) :
    convertFile target oracle fd =
      ({ fd with
          status := some "failed",
          error := some ("Currency conversion failed: " ++ e) }, true) := by
  rw [convertFile, hd, hs, ha]
  simp [pyTruthyStr, pyTruthyNum, isEmpty_false_of_ne d hd2, isEmpty_false_of_ne s hs2,
    ha2, hne, horacle]

/-! ### C4 -/

/-- C4: `is_open()` returns true iff `failure_count ≥ max_failures`
(default 2); after two consecutive `record_failure()` calls on the
default breaker, the next `get_rate` call fails with the
`FrankfurterDown` (service-down) error and issues no network request. -/
theorem C4_is_open_iff_and_trips_after_two_failures :
    (∀ cb : CircuitBreaker, cb.is_open = true ↔ cb.max_failures ≤ cb.failure_count) ∧
    CircuitBreaker.mkDefault.max_failures = 2 ∧
    (∀ (date : String) (parsed : Option String) (f t : String) (up : Upstream),
      (get_rate CircuitBreaker.mkDefault.record_failure.record_failure
          date parsed f t up).networkCalled = false ∧
      (get_rate CircuitBreaker.mkDefault.record_failure.record_failure
          date parsed f t up).result
        = .error (.frankfurterDown (frankfurterDownMsg 3))) := by
  refine ⟨fun cb => ?_, rfl, fun date parsed f t up => ⟨rfl, rfl⟩⟩
  simp [CircuitBreaker.is_open]

/-! ### C6 -/

/-- C6 counterexample: with the breaker open at `failure_count = 2`, the
`get_rate` call does fail fast without a network request, but the
`FrankfurterDown` message reports `failure_count + 1 = 3` consecutive
failures, not the current failure count 2 of the breaker. -/
theorem C6_counterexample :
    (get_rate { failure_count := 2, max_failures := 2 } "2025-07-10"
        (some "2025-07-10") "USD" "EUR" (Upstream.rates [("EUR", 12 / 10)])).result
      = .error (.frankfurterDown (frankfurterDownMsg 3)) ∧
    (get_rate { failure_count := 2, max_failures := 2 } "2025-07-10"
        (some "2025-07-10") "USD" "EUR" (Upstream.rates [("EUR", 12 / 10)])).networkCalled
      = false ∧
    frankfurterDownMsg 3 ≠ frankfurterDownMsg 2 := by
  refine ⟨rfl, rfl, by decide⟩

/-- C6 (amended): for every `get_rate` call made while the breaker is
open, the call fails immediately with the distinguished
service-unavailable error, no network call is attempted, the breaker is
unchanged — and the error message reports the current failure count
PLUS ONE (`currency.py` line 79 interpolates `failure_count + 1`). -/
theorem C6_open_breaker_fails_fast (cb : CircuitBreaker) (date : String)
    (parsed : Option String) (f t : String) (up : Upstream)
    (h : cb.is_open = true) :
    (get_rate cb date parsed f t up).result
      = .error (.frankfurterDown (frankfurterDownMsg (cb.failure_count + 1))) ∧
    (get_rate cb date parsed f t up).networkCalled = false ∧
    (get_rate cb date parsed f t up).breaker = cb := by
  refine ⟨?_, ?_, ?_⟩ <;> simp [get_rate, h, CircuitBreaker.get_failure_count]

/-- Witness for `C6_open_breaker_fails_fast` at a concrete open breaker. -/
theorem C6_open_breaker_fails_fast_witness :
    (get_rate { failure_count := 2, max_failures := 2 } "2025-07-10" none "USD" "EUR"
        Upstream.timeout).result
      = .error (.frankfurterDown (frankfurterDownMsg 3)) ∧
    (get_rate { failure_count := 2, max_failures := 2 } "2025-07-10" none "USD" "EUR"
        Upstream.timeout).networkCalled = false ∧
    (get_rate { failure_count := 2, max_failures := 2 } "2025-07-10" none "USD" "EUR"
        Upstream.timeout).breaker = { failure_count := 2, max_failures := 2 } :=
  C6_open_breaker_fails_fast { failure_count := 2, max_failures := 2 }
    "2025-07-10" none "USD" "EUR" Upstream.timeout (by decide)

/-! ### C9 -/

/-- C9: with the breaker closed and a date that cannot be normalized,
`get_rate` raises the invalid-input `ValueError` (distinct from the
upstream-failure and breaker-open errors), the breaker is unchanged, and
no network request occurs. -/
theorem C9_invalid_date_skips_breaker (cb : CircuitBreaker) (date : String)
    (f t : String) (up : Upstream) (h : cb.is_open = false) :
    (get_rate cb date none f t up).result
      = .error (.invalidDate ("Invalid date format: " ++ date)) ∧
    (get_rate cb date none f t up).breaker = cb ∧
    (get_rate cb date none f t up).networkCalled = false ∧
    (∀ m, RateError.invalidDate ("Invalid date format: " ++ date)
      ≠ RateError.upstreamError m) ∧
    (∀ m, RateError.invalidDate ("Invalid date format: " ++ date)
      ≠ RateError.frankfurterDown m) := by
  refine ⟨?_, ?_, ?_, ?_, ?_⟩
  · simp [get_rate, h]
  · simp [get_rate, h]
  · simp [get_rate, h]
  · intro m h2; cases h2
  · intro m h2; cases h2

/-- Witness for `C9_invalid_date_skips_breaker`: a fresh breaker and an
unparsable date string. -/
theorem C9_invalid_date_skips_breaker_witness :
    (get_rate CircuitBreaker.mkDefault "not-a-date" none "USD" "ILS"
        Upstream.timeout).result
      = .error (.invalidDate ("Invalid date format: " ++ "not-a-date")) ∧
    (get_rate CircuitBreaker.mkDefault "not-a-date" none "USD" "ILS"
        Upstream.timeout).breaker = CircuitBreaker.mkDefault ∧
    (get_rate CircuitBreaker.mkDefault "not-a-date" none "USD" "ILS"
        Upstream.timeout).networkCalled = false ∧
    (∀ m, RateError.invalidDate ("Invalid date format: " ++ "not-a-date")
      ≠ RateError.upstreamError m) ∧
    (∀ m, RateError.invalidDate ("Invalid date format: " ++ "not-a-date")
      ≠ RateError.frankfurterDown m) :=
  C9_invalid_date_skips_breaker CircuitBreaker.mkDefault "not-a-date" "USD" "ILS"
    Upstream.timeout (by decide)

/-! ### C3 -/

/-- C3: in the conversion stage, if the rate lookup for item `i` raises,
item `i` is marked failed with a message that includes the underlying
cause, the batch keeps its length, and every position of the output —
item `i` included — is determined solely by the input item at that
position, so the loop continues and the other items are unaffected. -/
theorem C3_per_item_failure_isolation (target : String) (oracle : RateOracle)
    (files : List FileData) (i : ℕ) (fdi : FileData) (d s : String) (a : ℚ) (e : String)
    (hfi : files[i]? = some fdi)
    (hd : fdi.invoice_date = some d) (hd2 : d ≠ "")
    (hs : fdi.src_currency = some s) (hs2 : s ≠ "")
    (ha : fdi.invoice_total = some a) (ha2 : a ≠ 0)
    (hne : pyUpper s ≠ pyUpper target)
    (horacle : oracle d s target = .error e) :
    (convertFiles target oracle files).length = files.length ∧
    ((convertFiles target oracle files)[i]?).map FileData.status = some (some "failed") ∧
    ((convertFiles target oracle files)[i]?).map FileData.error
      = some (some ("Currency conversion failed: " ++ e)) ∧
    ∀ j : ℕ, (convertFiles target oracle files)[j]?
      = files[j]?.map (fun fd => (convertFile target oracle fd).1) := by
  have hitem := convertFile_oracle_error target oracle fdi d s a e hd hd2 hs hs2 ha ha2
    hne horacle
  refine ⟨convertFiles_length target oracle files, ?_, ?_,
    fun j => convertFiles_getElem target oracle files j⟩
  · rw [convertFiles_getElem, hfi]
    simp [hitem]
  · rw [convertFiles_getElem, hfi]
    simp [hitem]

/-- Witness for `C3_per_item_failure_isolation`: a one-item batch whose
lookup times out. -/
theorem C3_per_item_failure_isolation_witness :
    (convertFiles "ILS" failingRateOracle [sampleConvertibleFile]).length = 1 ∧
    ((convertFiles "ILS" failingRateOracle [sampleConvertibleFile])[0]?).map FileData.status
      = some (some "failed") ∧
    ((convertFiles "ILS" failingRateOracle [sampleConvertibleFile])[0]?).map FileData.error
      = some (some ("Currency conversion failed: "
          ++ "[get_rate] Request timeout for date 2025-07-01")) ∧
    ∀ j : ℕ, (convertFiles "ILS" failingRateOracle [sampleConvertibleFile])[j]?
      = [sampleConvertibleFile][j]?.map (fun fd => (convertFile "ILS" failingRateOracle fd).1) :=
  C3_per_item_failure_isolation "ILS" failingRateOracle [sampleConvertibleFile] 0
    sampleConvertibleFile "2025-07-01" "USD" 100
    "[get_rate] Request timeout for date 2025-07-01"
    rfl rfl (by decide) rfl (by decide) rfl (by norm_num) (by decide) rfl

/-! ### C8 -/

/-- C8: in the conversion stage, an item with all required fields whose
source currency equals the target currency case-insensitively gets
`exchange_rate = 1.0` and `converted_total` equal to the source amount
unchanged, and no rate lookup is made for it. -/
theorem C8_same_currency_short_circuit (target : String) (oracle : RateOracle)
    (fd : FileData) (d s : String) (a : ℚ)
    (hd : fd.invoice_date = some d) (hd2 : d ≠ "")
    (hs : fd.src_currency = some s) (hs2 : s ≠ "")
    (ha : fd.invoice_total = some a) (ha2 : a ≠ 0)
    (heq : pyUpper s = pyUpper target) :
    convertFile target oracle fd
      = ({ fd with exchange_rate := some 1, converted_total := some a }, false) := by
  rw [convertFile, hd, hs, ha]
  simp [pyTruthyStr, pyTruthyNum, isEmpty_false_of_ne d hd2, isEmpty_false_of_ne s hs2,
    ha2, heq]

/-- Witness for `C8_same_currency_short_circuit`: source `"USD"`,
target `"usd"` (the comparison is case-insensitive). -/
theorem C8_same_currency_short_circuit_witness :
    convertFile "usd" sampleRateOracle sampleConvertibleFile
      = ({ sampleConvertibleFile with
            exchange_rate := some 1, converted_total := some 100 }, false) :=
  C8_same_currency_short_circuit "usd" sampleRateOracle sampleConvertibleFile
    "2025-07-01" "USD" 100 rfl (by decide) rfl (by decide) rfl (by norm_num) (by decide)

/-! ### C10 -/

/-- C10: an item whose `invoice_date` and `src_currency` are present but
whose source amount is the legitimate value 0 is nevertheless marked
failed with the "Missing required fields" message — the Python `all` builtin
treats the falsy 0 as missing — and no conversion is performed. -/
theorem C10_zero_amount_treated_as_missing (target : String) (oracle : RateOracle)
    (fd : FileData) (d s : String)
    (hd : fd.invoice_date = some d) (hd2 : d ≠ "")
    (hs : fd.src_currency = some s) (hs2 : s ≠ "")
    (ha : fd.invoice_total = some 0) :
    convertFile target oracle fd
      = ({ fd with
          status := some "failed",
          error := some "Missing required fields: invoice_date, src_currency, or invoice_total" },
        false) := by
  rw [convertFile, hd, hs, ha]
  simp [pyTruthyStr, pyTruthyNum]

/-- Witness for `C10_zero_amount_treated_as_missing`. -/
theorem C10_zero_amount_treated_as_missing_witness :
    convertFile "ILS" sampleRateOracle zeroAmountFile
      = ({ zeroAmountFile with
          status := some "failed",
          error := some "Missing required fields: invoice_date, src_currency, or invoice_total" },
        false) :=
  C10_zero_amount_treated_as_missing "ILS" sampleRateOracle zeroAmountFile
    "2025-07-01" "USD" rfl (by decide) rfl (by decide) rfl

/-- `convertFile` on a file whose required fields are present, whose
currency differs from the target, and whose rate lookup succeeds with
rate `r`: the stored rate is `r` and the converted total is the
half-up-rounded product. -/
theorem convertFile_oracle_ok (target : String) (oracle : RateOracle)
    (fd : FileData) (d s : String) (a r : ℚ)
    (hd : fd.invoice_date = some d) (hd2 : d ≠ "")
    (hs : fd.src_currency = some s) (hs2 : s ≠ "")
    (ha : fd.invoice_total = some a) (ha2 : a ≠ 0)
    (hne : pyUpper s ≠ pyUpper target)
    (horacle : oracle d s target = .ok r) :
    convertFile target oracle fd
      = ({ fd with
            exchange_rate := some r,
            converted_total := some (roundHalfUp2 (a * r)) }, true) := by
  rw [convertFile, hd, hs, ha]
  simp [pyTruthyStr, pyTruthyNum, isEmpty_false_of_ne d hd2, isEmpty_false_of_ne s hs2,
    ha2, hne, horacle]

/-- The timeout progress message is distinguishable from every generic
failure progress message. -/
theorem timeoutMsg_ne_failMsg (e : String) :
    "Pipeline execution timed out" ≠ "Pipeline execution failed: " ++ e := by
  intro h
  have hd : ("Pipeline execution timed out").data
      = ("Pipeline execution failed: ").data ++ e.data := by
    rw [h]
    rfl
  have h19 := congrArg (fun l => l[19]?) hd
  simp only at h19
  rw [List.getElem?_append, if_pos (by decide)] at h19
  exact absurd h19 (by decide)

/-! ### C1 -/

/-- C1 counterexample: `get_rate` rounds the raw upstream rate 3.333 to
3.33 before returning it, so the conversion stage multiplies 123.456 by
3.33 and stores `converted_total = 411.11`, not the 411.48 the claim
states (the own premise of the claim — the rate is rounded to 2 decimals
before the multiplication — makes its stated product unreachable). -/
theorem C1_counterexample :
    (get_rate CircuitBreaker.mkDefault "2025-07-01" (some "2025-07-01") "USD" "ILS"
        (Upstream.rates [("ILS", 3333 / 1000)])).result = Except.ok (333 / 100) ∧
    ((convertFile "ILS" (fun _ _ _ => Except.ok ((333 : ℚ) / 100))
        roundingExampleFile).1).converted_total = some (41111 / 100) ∧
    (41111 : ℚ) / 100 ≠ 41148 / 100 := by
  have hup : pyUpper "ILS" = "ILS" := by decide
  have hne : pyUpper "USD" ≠ pyUpper "ILS" := by decide
  have hlk : List.lookup "ILS" [("ILS", (3333 : ℚ) / 1000)] = some (3333 / 1000) := rfl
  refine ⟨?_, ?_, by norm_num⟩
  · simp [get_rate, CircuitBreaker.mkDefault, CircuitBreaker.is_open, hup, hlk,
      roundHalfUp2_rate_example]
  · have h2 := convertFile_oracle_ok "ILS" (fun _ _ _ => Except.ok ((333 : ℚ) / 100))
      roundingExampleFile "2025-07-01" "USD" (123456 / 1000) (333 / 100)
      rfl (by decide) rfl (by decide) rfl (by norm_num) hne rfl
    rw [h2]
    simp [roundHalfUp2_total_example]

/-- C1 (amended): when the upstream service reports a raw rate of 3.333,
`get_rate` returns it rounded half-up to 2 decimals, i.e. 3.33, and an
item with source amount 123.456 converted at the returned rate gets
`converted_total = 411.11` (123.456 × 3.33 = 411.10848, round-half-up to
2 decimal places), with the returned rate 3.33 stored as
`exchange_rate`. -/
theorem C1_rounded_rate_conversion :
    (get_rate CircuitBreaker.mkDefault "2025-07-01" (some "2025-07-01") "USD" "ILS"
        (Upstream.rates [("ILS", 3333 / 1000)])).result = Except.ok (333 / 100) ∧
    convertFile "ILS" (fun _ _ _ => Except.ok ((333 : ℚ) / 100)) roundingExampleFile
      = ({ roundingExampleFile with
            exchange_rate := some (333 / 100),
            converted_total := some (41111 / 100) }, true) := by
  have hup : pyUpper "ILS" = "ILS" := by decide
  have hne : pyUpper "USD" ≠ pyUpper "ILS" := by decide
  have hlk : List.lookup "ILS" [("ILS", (3333 : ℚ) / 1000)] = some (3333 / 1000) := rfl
  constructor
  · simp [get_rate, CircuitBreaker.mkDefault, CircuitBreaker.is_open, hup, hlk,
      roundHalfUp2_rate_example]
  · have h2 := convertFile_oracle_ok "ILS" (fun _ _ _ => Except.ok ((333 : ℚ) / 100))
      roundingExampleFile "2025-07-01" "USD" (123456 / 1000) (333 / 100)
      rfl (by decide) rfl (by decide) rfl (by norm_num) hne rfl
    rw [h2, roundHalfUp2_total_example]

/-! ### C5 -/

/-- C5 counterexample: an item that the currency-validation stage marked
failed with "No currency information found in invoice" leaves the
conversion stage still failed, but with its error message OVERWRITTEN by
the own "Missing required fields" message of the conversion stage, so the
message of the failing stage is not retained. -/
theorem C5_counterexample :
    (checkFileOfInvoice invoiceNoCurrency).status = some "failed" ∧
    (checkFileOfInvoice invoiceNoCurrency).error
      = some "No currency information found in invoice" ∧
    ((convertFile "ILS" sampleRateOracle (checkFileOfInvoice invoiceNoCurrency)).1).status
      = some "failed" ∧
    ((convertFile "ILS" sampleRateOracle (checkFileOfInvoice invoiceNoCurrency)).1).error
      = some "Missing required fields: invoice_date, src_currency, or invoice_total" ∧
    ("Missing required fields: invoice_date, src_currency, or invoice_total" : String)
      ≠ "No currency information found in invoice" := by
  refine ⟨by decide, by decide, by decide, by decide, by decide⟩

/-- C5 (amended): once the status of an item is failed, no later stage sets
it back to a success state — the conversion stage either leaves `status`
untouched or writes `"failed"` — but the error message is not always
retained: a later stage may overwrite it with its own failure message. -/
theorem C5_failed_status_never_reverts (target : String) (oracle : RateOracle)
    (fd : FileData) (h : fd.status = some "failed") :
    ((convertFile target oracle fd).1).status = some "failed" ∧
    ∀ fd2, ((convertFile target oracle fd2).1).status = fd2.status ∨
      ((convertFile target oracle fd2).1).status = some "failed" := by
  constructor
  · rcases convertFile_status target oracle fd with h1 | h1
    · rw [h1, h]
    · exact h1
  · exact fun fd2 => convertFile_status target oracle fd2

/-- Witness for `C5_failed_status_never_reverts` at the item failed by
the currency-validation stage. -/
theorem C5_failed_status_never_reverts_witness :
    ((convertFile "ILS" sampleRateOracle (checkFileOfInvoice invoiceNoCurrency)).1).status
      = some "failed" ∧
    ∀ fd2, ((convertFile "ILS" sampleRateOracle fd2).1).status = fd2.status ∨
      ((convertFile "ILS" sampleRateOracle fd2).1).status = some "failed" :=
  C5_failed_status_never_reverts "ILS" sampleRateOracle
    (checkFileOfInvoice invoiceNoCurrency) (by decide)

/-! ### C7 -/

/-- C7 counterexample: on the overall timeout the runner emits the
terminal error event with the distinguishing message, but performs NO
database update — the persisted status of the job is not set to `error`,
unlike the generic-exception path. -/
theorem C7_counterexample :
    (execute_pipeline PipelineOutcome.timedOut).1.getLast?
      = some { status := "error", message := "Pipeline execution timed out" } ∧
    (execute_pipeline PipelineOutcome.timedOut).2 = none ∧
    (execute_pipeline (PipelineOutcome.exn "boom")).2 = some "error" ∧
    (none : Option String) ≠ some "error" := by
  refine ⟨by decide, by decide, by decide, by decide⟩

/-- C7 (amended): exceeding the overall timeout yields a terminal error
event whose message ("Pipeline execution timed out") is distinct from
every generic-failure message, but the runner does NOT update the persisted
job status on that path; only other job-fatal exceptions set the
persisted status to `error`. -/
theorem C7_timeout_event_but_no_db_update :
    (execute_pipeline PipelineOutcome.timedOut).1.getLast?
      = some { status := "error", message := "Pipeline execution timed out" } ∧
    (execute_pipeline PipelineOutcome.timedOut).2 = none ∧
    (∀ e, (execute_pipeline (PipelineOutcome.exn e)).1.getLast?
        = some { status := "error", message := "Pipeline execution failed: " ++ e } ∧
      (execute_pipeline (PipelineOutcome.exn e)).2 = some "error") ∧
    (∀ e, "Pipeline execution timed out" ≠ "Pipeline execution failed: " ++ e) := by
  refine ⟨by decide, by decide, fun e => ⟨rfl, rfl⟩, fun e => timeoutMsg_ne_failMsg e⟩

/-! ### C2 -/

/-- C2 counterexample: in a two-file batch where `a.pdf` fails
extraction and `b.pdf` succeeds, the extraction stage still holds both
files, but the currency-validation stage rebuilds the `files` list of the batch
from the extracted invoices only — the failed item is dropped (1 file
left, none of them `a.pdf`), stays dropped through conversion, and the
final report renders a single data row, so the failed upload is not
rendered as a failed placeholder row. -/
theorem C2_counterexample :
    ((extract_run sampleExtractOracle sampleState).map (fun st1 =>
      (st1.files.length,
        (check_currency_run st1).files.length,
        (check_currency_run st1).files.all
          (fun fd => decide (fd.filename ≠ some "a.pdf")),
        (convert_run none sampleRateOracle (check_currency_run st1)).files.length,
        (excelRows
          ((convert_run none sampleRateOracle (check_currency_run st1)).target_currency.getD
            "USD")
          (convert_run none sampleRateOracle (check_currency_run st1)).invoices).length)))
      = Except.ok (2, 1, true, 1, 1) := by decide

/-- C2 (amended): the currency-validation stage rebuilds the `files`
list solely from the successfully extracted invoices (one entry per
invoice, in order), so an upload whose extraction failed is absent from
the batch passed to the later stages and contributes no row to the
report; the items that do reach the conversion stage are all preserved,
and the report renders exactly one row per extracted invoice. -/
theorem C2_extraction_failed_items_dropped (state : PipelineState)
    (envVar : Option String) (oracle : RateOracle) (target : String)
    (h : state.invoices ≠ []) :
    (check_currency_run state).files = state.invoices.map checkFileOfInvoice ∧
    (convert_run envVar oracle state).files.length = state.files.length ∧
    (excelRows target state.invoices).length = state.invoices.length := by
  refine ⟨?_, ?_, ?_⟩
  · simp [check_currency_run, checkFiles_eq_map]
  · simp [convert_run, convertFiles_length]
  · obtain ⟨inv, rest, hinv⟩ : ∃ a l, state.invoices = a :: l := by
      cases hI : state.invoices with
      | nil => exact absurd hI h
      | cons a l => exact ⟨a, l, rfl⟩
    rw [hinv]
    simp [excelRows]

/-- Witness for `C2_extraction_failed_items_dropped` at a state carrying
one extracted invoice. -/
theorem C2_extraction_failed_items_dropped_witness :
    (check_currency_run sampleStateWithInvoice).files
      = sampleStateWithInvoice.invoices.map checkFileOfInvoice ∧
    (convert_run none sampleRateOracle sampleStateWithInvoice).files.length
      = sampleStateWithInvoice.files.length ∧
    (excelRows "ILS" sampleStateWithInvoice.invoices).length
      = sampleStateWithInvoice.invoices.length :=
  C2_extraction_failed_items_dropped sampleStateWithInvoice none sampleRateOracle "ILS"
    (by decide)

end InvoiceTools
